import Mathlib

/-!
Shallow embedding of the Sei wallet scoring engine
(`mcp-agents/mcp/server/analyze_server.py` plus the input guards of
`analyze_server_simple_http.py` and the comparator guard of
`analyze_server_live.py`).

Python floats are idealized as exact rationals (`ℚ`); `round(x, 3)` is
modelled as round-half-to-even on multiples of 1/1000; Python dictionaries
with the keys the code actually reads (`amount`, `from`, `to`, `type`)
become the `Tx` structure, with `Option` for keys that may be absent.
A Python function that can raise is embedded as `Except`.
-/

deriving instance DecidableEq for Except

/-- A transaction record, modelling the dict keys read by the analyzer:
`tx.get('amount', 0)` (missing amount behaves as 0), the optional `from`,
`to` and `type` keys. -/
structure Tx where
  amount : ℚ
  tx_from : Option String
  tx_to : Option String
  tx_type : Option String
deriving DecidableEq, Repr

/-- Exceptions the embedded Python code can raise. -/
inductive PyErr where
  | zeroDivision
deriving DecidableEq, Repr

/-- Arithmetic mean of a list (`statistics.mean`); total with junk value 0
on the empty list, on which the source never calls it. -/
def listMean (l : List ℚ) : ℚ := l.sum / (l.length : ℚ)

/-- Maximum of a list (`max(...)`); total with the head as seed. -/
def listMax (l : List ℚ) : ℚ := l.foldl max (l.headD 0)

/-- Median of a list (`statistics.median`): middle element of the sorted
list for odd length, mean of the two middle elements for even length. -/
def listMedian (l : List ℚ) : ℚ :=
  let s := List.insertionSort (· ≤ ·) l
  let n := l.length
  if n % 2 = 1 then s.getD (n / 2) 0
  else (s.getD (n / 2 - 1) 0 + s.getD (n / 2) 0) / 2

/-- Round-half-to-even to an integer (Python banker's rounding). -/
def roundHalfEven (x : ℚ) : ℤ :=
  let f : ℤ := x.floor
  let frac := x - (f : ℚ)
  if frac < 1/2 then f
  else if 1/2 < frac then f + 1
  else if f % 2 = 0 then f else f + 1

/-- Python `round(x, 3)` on the exact-rational idealization. -/
def round3 (x : ℚ) : ℚ := (roundHalfEven (x * 1000) : ℚ) / 1000

/-- The distinct counterparties of a transaction list: the Python
`set()` built by adding `tx['from']` and `tx['to']` whenever the key is
present, modelled as a deduplicated list (same cardinality). -/
def counterpartyList (transactions : List Tx) : List String :=
  (transactions.filterMap Tx.tx_from ++ transactions.filterMap Tx.tx_to).dedup

/-- Cardinality of the counterparty set. -/
def countCounterparties (transactions : List Tx) : ℕ :=
  (counterpartyList transactions).length

/-- `SeiAnalyzer.calculate_whale_score`: whale score from token holdings,
a step function of the percentage of total supply held. -/
def calculate_whale_score (balance : ℚ) (total_supply : ℚ) : ℚ :=
  if balance ≤ 0 then 0.0
  else
    let percentage_of_supply := (balance / total_supply) * 100
    if percentage_of_supply ≥ 1.0 then 1.0
    else if percentage_of_supply ≥ 0.1 then 0.9
    else if percentage_of_supply ≥ 0.01 then 0.7
    else if percentage_of_supply ≥ 0.001 then 0.5
    else if percentage_of_supply ≥ 0.0001 then 0.3
    else 0.1

/-- `SeiAnalyzer.calculate_risk_factor`: neutral 0.5 when there are no
transactions, else the mean of the frequency factor, the amount factor
(appended only when the amounts list is non-empty, as in the source) and
the counterparty-diversity factor, clamped to at most 1. -/
def calculate_risk_factor (transactions : List Tx) (balance : ℚ) : ℚ :=
  if transactions.isEmpty then 0.5
  else
    let tx_count := transactions.length
    let freqFactor : ℚ :=
      if tx_count > 1000 then 0.8 else if tx_count > 100 then 0.6 else 0.3
    let amounts := transactions.map Tx.amount
    let amountFactors : List ℚ :=
      if amounts.isEmpty then []
      else [if listMax amounts > balance * 0.5 then (0.7 : ℚ)
            else if listMean amounts > balance * 0.1 then 0.6 else 0.3]
    let ratioCounterparty : ℚ :=
      (countCounterparties transactions : ℚ) / (max tx_count 1 : ℕ)
    let divFactor : ℚ :=
      if ratioCounterparty < 0.1 then 0.8
      else if ratioCounterparty < 0.3 then 0.6 else 0.3
    let risk_factors := freqFactor :: (amountFactors ++ [divFactor])
    min (listMean risk_factors) 1.0

/-- `SeiAnalyzer.calculate_influence_score`: 0.1 with no transactions,
otherwise a weighted sum of volume, activity and network terms.  The
volume term divides by `balance * 10` with no guard, so the Python code
raises `ZeroDivisionError` when the denominator is zero. -/
def calculate_influence_score (transactions : List Tx) (balance : ℚ) :
    Except PyErr ℚ :=
  if transactions.isEmpty then .ok 0.1
  else if balance * 10 = 0 then .error .zeroDivision
  else
    let total_volume := (transactions.map Tx.amount).sum
    let volume_score := min (total_volume / (balance * 10)) 1.0 * 0.4
    let tx_count := transactions.length
    let activity_score := min ((tx_count : ℚ) / 1000) 1.0 * 0.3
    let network_score := min ((countCounterparties transactions : ℚ) / 100) 1.0 * 0.3
    .ok (min (volume_score + activity_score + network_score) 1.0)

/-- Spec-side step function for C3, written from the claim's words:
whale_score is exactly the step function of
percentage_of_supply = balance/total_supply × 100 with the listed
breakpoints, and 0 for balance ≤ 0. -/
def whale_score_spec (balance : ℚ) (total_supply : ℚ) : ℚ :=
  let percentage := balance / total_supply * 100
  if balance ≤ 0 then 0.0
  else if percentage ≥ 1.0 then 1.0
  else if percentage ≥ 0.1 then 0.9
  else if percentage ≥ 0.01 then 0.7
  else if percentage ≥ 0.001 then 0.5
  else if percentage ≥ 0.0001 then 0.3
  else 0.1

/-- Spec-side risk factor for C5, written from the claim's words: empty
list gives exactly 0.5; otherwise the arithmetic mean, clamped to ≤ 1,
of exactly three sub-scores (frequency, amount concentration,
counterparty diversity with ratio = unique_counterparties / tx_count). -/
def risk_factor_spec (transactions : List Tx) (balance : ℚ) : ℚ :=
  if transactions = [] then 0.5
  else
    let tx_count := transactions.length
    let frequency : ℚ :=
      if tx_count > 1000 then 0.8 else if tx_count > 100 then 0.6 else 0.3
    let amounts := transactions.map Tx.amount
    let concentration : ℚ :=
      if listMax amounts > balance * 0.5 then 0.7
      else if listMean amounts > balance * 0.1 then 0.6 else 0.3
    let ratio : ℚ := (countCounterparties transactions : ℚ) / (tx_count : ℚ)
    let diversity : ℚ :=
      if ratio < 0.1 then 0.8 else if ratio < 0.3 then 0.6 else 0.3
    min ((frequency + concentration + diversity) / 3) 1.0

/-- Check whether the first list occurs at the start of the second
(Python `str.startswith`, on character lists). -/
def startsWithL : List Char → List Char → Bool
  | [], _ => true
  | _ :: _, [] => false
  | a :: as, b :: bs => a == b && startsWithL as bs

/-- Substring occurrence test (Python `needle in hay`), first argument
the haystack, second the needle. -/
def containsSub : List Char → List Char → Bool
  | [], needle => needle.isEmpty
  | c :: rest, needle => startsWithL needle (c :: rest) || containsSub rest needle

/-- Predicate for a staking transaction: `'staking' in tx.get('type', '').lower()`
(case-insensitive substring test). -/
def isStakingTx (tx : Tx) : Bool :=
  containsSub ((tx.tx_type.getD "").toList.map Char.toLower) "staking".toList

/-- Count of transactions with `tx.get('type') == 'incoming'`. -/
def incomingCount (transactions : List Tx) : ℕ :=
  transactions.countP (fun tx => tx.tx_type == some "incoming")

/-- Count of transactions with `tx.get('type') == 'outgoing'`. -/
def outgoingCount (transactions : List Tx) : ℕ :=
  transactions.countP (fun tx => tx.tx_type == some "outgoing")

/-- Summary record of `SeiAnalyzer.analyze_transaction_patterns` for a
non-empty transaction list (the `min_amount` local of the source is
computed but never returned, so it is not a field). -/
structure PatternSummary where
  primary_pattern : String
  transaction_count : ℕ
  average_amount : ℚ
  median_amount : ℚ
  max_amount : ℚ
  ratioIncoming : ℚ
  ratioOutgoing : ℚ
  patterns : List String
deriving DecidableEq, Repr

/-- Result of `analyze_transaction_patterns`: the source returns one of
two dict shapes, a `no_activity` record for the empty list or the full
summary. -/
inductive PatternResult where
  | noActivity (pattern : String) (description : String)
  | summary (s : PatternSummary)
deriving DecidableEq, Repr

/-- `SeiAnalyzer.analyze_transaction_patterns`. -/
def analyze_transaction_patterns (transactions : List Tx) : PatternResult :=
  if transactions.isEmpty then
    .noActivity "no_activity" "No transactions found"
  else
    let tx_count := transactions.length
    let amounts := transactions.map Tx.amount
    let avg_amount := listMean amounts
    let median_amount := listMedian amounts
    let max_amount := listMax amounts
    let incoming := incomingCount transactions
    let outgoing := outgoingCount transactions
    let patterns : List String :=
      if tx_count > 1000 then ["high_frequency_trader"]
      else if incoming > outgoing * 2 then ["accumulator"]
      else if outgoing > incoming * 2 then ["distributor"]
      else if avg_amount > median_amount * 3 then ["irregular_amounts"]
      else ["regular_user"]
    .summary
      { primary_pattern := patterns.headD "unknown"
        transaction_count := tx_count
        average_amount := avg_amount
        median_amount := median_amount
        max_amount := max_amount
        ratioIncoming := (incoming : ℚ) / (max tx_count 1 : ℕ)
        ratioOutgoing := (outgoing : ℚ) / (max tx_count 1 : ℕ)
        patterns := patterns }

/-- The analyzer's fixed inflation-rate constant
(`self.sei_metrics["inflation_rate"]`). -/
def inflation_rate : ℚ := 0.08

/-- Result record of `SeiAnalyzer.get_sei_specific_metrics`. -/
structure SeiMetrics where
  staking_amount : ℚ
  defi_participation : Bool
  sei_network_score : ℚ
  estimated_rewards : ℚ
  validator_interactions : ℕ
deriving DecidableEq, Repr

/-- `SeiAnalyzer.get_sei_specific_metrics`: staking totals over the
transactions whose type contains "staking", DeFi participation from a
`to` address starting with "sei1", and the derived network score. -/
def get_sei_specific_metrics (_address : String) (transactions : List Tx) :
    SeiMetrics :=
  let staking_txs := transactions.filter isStakingTx
  let delegation_amount := (staking_txs.map Tx.amount).sum
  let defi_txs := transactions.filter (fun tx => startsWithL "sei1".toList (tx.tx_to.getD "").toList)
  let defi_participation := defi_txs.length > 0
  let base : ℚ := 0.5
  let s1 := if delegation_amount > 0 then base + 0.2 else base
  let s2 := if defi_participation then s1 + 0.2 else s1
  let s3 := if transactions.length > 50 then s2 + 0.1 else s2
  { staking_amount := delegation_amount
    defi_participation := defi_participation
    sei_network_score := min s3 1.0
    estimated_rewards := delegation_amount * inflation_rate * 0.85
    validator_interactions := staking_txs.length }

/-- Classification chain of `analyze_wallet` (lines 244-255 of the
source), first match wins. -/
def classify (whale_score influence_score : ℚ) (defi_participation : Bool)
    (staking_amount : ℚ) : String :=
  if whale_score ≥ 0.8 then "Whale"
  else if whale_score ≥ 0.5 then "Large Holder"
  else if influence_score ≥ 0.7 then "Active Trader"
  else if defi_participation then "DeFi User"
  else if staking_amount > 0 then "Staker"
  else "Regular User"

/-- Spec-side classification for C6, written from the claim's words:
ordered precedence, first match wins, over the fixed enumeration. -/
def classify_spec (whale_score influence_score : ℚ) (defi_participation : Bool)
    (staking_amount : ℚ) : String :=
  if whale_score ≥ 0.8 then "Whale"
  else if whale_score ≥ 0.5 then "Large Holder"
  else if influence_score ≥ 0.7 then "Active Trader"
  else if defi_participation then "DeFi User"
  else if staking_amount > 0 then "Staker"
  else "Regular User"

/-- The fixed enumeration of classification labels. -/
def classificationLabels : List String :=
  ["Whale", "Large Holder", "Active Trader", "DeFi User", "Staker", "Regular User"]

/-- Input of the analyze-wallet tool: the dict keys the source reads,
with `address` optional (`walletData.get('address', 'unknown')`) and
`balance` already coerced to a number (`float(walletData.get('balance', 0))`). -/
structure WalletData where
  address : Option String
  balance : ℚ
  transactions : List Tx
deriving DecidableEq, Repr

/-- The `scores` sub-dict of the analysis result (each entry rounded to
three decimals in the source). -/
structure Scores where
  whale_score : ℚ
  risk_factor : ℚ
  influence_score : ℚ
  overall_score : ℚ
  sei_network_score : ℚ
deriving DecidableEq, Repr

/-- The `wallet_metrics` sub-dict of the analysis result. -/
structure WalletMetrics where
  balance_sei : ℚ
  transaction_count : ℕ
  estimated_usd_value : ℚ
  balance_percentage_of_supply : ℚ
deriving DecidableEq, Repr

/-- The `risk_assessment` sub-dict of the analysis result. -/
structure RiskAssessment where
  level : String
  factors : List String
deriving DecidableEq, Repr

/-- The full result dict of `analyze_wallet`. -/
structure WalletAnalysis where
  address : String
  analysis_timestamp : String
  classification : String
  scores : Scores
  wallet_metrics : WalletMetrics
  transaction_patterns : PatternResult
  sei_specific : SeiMetrics
  risk_assessment : RiskAssessment
  recommendations : List String
deriving DecidableEq, Repr

/-- The `analyze_wallet` tool.  The wall-clock reading
`datetime.now().isoformat()` is made an explicit parameter `now`; the
unguarded division inside `calculate_influence_score` makes the call
fallible, and every later step of the source runs after that call. -/
def analyze_wallet (walletData : WalletData) (now : String) :
    Except PyErr WalletAnalysis :=
  let address := walletData.address.getD "unknown"
  let balance := walletData.balance
  let transactions := walletData.transactions
  let whale_score := calculate_whale_score balance 10000000000
  let risk_factor := calculate_risk_factor transactions balance
  (calculate_influence_score transactions balance).map fun influence_score =>
    let patterns := analyze_transaction_patterns transactions
    let sei_metrics := get_sei_specific_metrics address transactions
    let overall_score :=
      whale_score * 0.3 + (1 - risk_factor) * 0.3 + influence_score * 0.4
    let classification :=
      classify whale_score influence_score sei_metrics.defi_participation
        sei_metrics.staking_amount
    let fromFieldSet := (transactions.map (fun tx => tx.tx_from.getD "")).dedup
    { address := address
      analysis_timestamp := now
      classification := classification
      scores :=
        { whale_score := round3 whale_score
          risk_factor := round3 risk_factor
          influence_score := round3 influence_score
          overall_score := round3 overall_score
          sei_network_score := round3 sei_metrics.sei_network_score }
      wallet_metrics :=
        { balance_sei := balance
          transaction_count := transactions.length
          estimated_usd_value := balance * 0.45
          balance_percentage_of_supply := (balance / 10000000000) * 100 }
      transaction_patterns := patterns
      sei_specific := sei_metrics
      risk_assessment :=
        { level :=
            if risk_factor > 0.7 then "High"
            else if risk_factor > 0.4 then "Medium" else "Low"
          factors :=
            (if transactions.length > 1000 then ["High transaction frequency"] else []) ++
            (if (fromFieldSet.length : ℚ) < (transactions.length : ℚ) * 0.1
             then ["Limited counterparties"] else []) ++
            (if transactions.any (fun tx => tx.amount > balance * 0.5)
             then ["Large transaction amounts"] else []) }
      recommendations :=
        (if risk_factor > 0.8 then ["Monitor for wash trading"] else []) ++
        (if influence_score > 0.8 ∧ transactions.length > 500
         then ["Potential market maker"] else []) ++
        (if sei_metrics.sei_network_score > 0.8
         then ["Strong network participant"] else []) ++
        (if sei_metrics.staking_amount > 1000000
         then ["Consider for validator program"] else []) }

/-- Replace the `analysis_timestamp` field by the empty string, for
stating determinism of everything else. -/
def eraseTimestamp (a : WalletAnalysis) : WalletAnalysis :=
  { a with analysis_timestamp := "" }

/-- Input of the compare-addresses tool. -/
structure AddressData where
  addresses : List WalletData
deriving DecidableEq, Repr

/-- Failure cases of the comparators: the `{"error": "At least 2
addresses required for comparison"}` / `{"error": "Could not analyze
enough addresses for comparison"}` returns, or an exception escaping
from a nested `analyze_wallet` call. -/
inductive CompareErr where
  | insufficientInput
  | analysisError (e : PyErr)
deriving DecidableEq, Repr

/-- One entry of the `individual_analysis` list built by
`compare_addresses`. -/
structure Comparison where
  address : String
  whale_score : ℚ
  risk_factor : ℚ
  influence_score : ℚ
  classification : String
  balance : ℚ
  tx_count : ℕ
deriving DecidableEq, Repr

/-- The comparator result dict of `compare_addresses`, flattened: the
`comparison_summary` and `insights` sub-dicts become top-level fields. -/
structure CompareResult where
  total_addresses : ℕ
  highest_whale_score : ℚ
  highest_risk : ℚ
  average_whale_score : ℚ
  average_risk : ℚ
  individual_analysis : List Comparison
  whale_concentration : ℕ
  high_risk_addresses : ℕ
  potential_connections : String
deriving DecidableEq, Repr

/-- Sample variance of a list, with the n−1 denominator:
`statistics.stdev(l) < c` (for `c ≥ 0`) holds exactly when
`sampleVar l < c²`, which is how the comparator's test is embedded. -/
def sampleVar (l : List ℚ) : ℚ :=
  let m := listMean l
  (l.map (fun x => (x - m) * (x - m))).sum / ((l.length : ℚ) - 1)

/-- Population variance of a list (n denominator), the spec-side notion
for C7: the population standard deviation is below `c ≥ 0` exactly when
`popVar` is below `c²`. -/
def popVar (l : List ℚ) : ℚ :=
  let m := listMean l
  (l.map (fun x => (x - m) * (x - m))).sum / (l.length : ℚ)

/-- The per-address loop of `compare_addresses`: analyze each wallet in
order, building its comparison entry; an exception from `analyze_wallet`
propagates out of the loop. -/
def analyzeAll (ws : List WalletData) (now : String) :
    Except PyErr (List Comparison) :=
  match ws with
  | [] => .ok []
  | w :: rest =>
    match analyze_wallet w now with
    | .error e => .error e
    | .ok a =>
      (analyzeAll rest now).map fun cs =>
        { address := w.address.getD "unknown"
          whale_score := a.scores.whale_score
          risk_factor := a.scores.risk_factor
          influence_score := a.scores.influence_score
          classification := a.classification
          balance := w.balance
          tx_count := w.transactions.length } :: cs

/-- The `compare_addresses` tool: fewer than 2 addresses is an input
error; otherwise every wallet is analyzed and the summary is built.  The
source's `statistics.stdev(whale_scores) < 0.1` is embedded as
`sampleVar whale_scores < 0.01` (same truth value, see `sampleVar`). -/
def compare_addresses (addressData : AddressData) (now : String) :
    Except CompareErr CompareResult :=
  if addressData.addresses.length < 2 then .error .insufficientInput
  else
    match analyzeAll addressData.addresses now with
    | .error e => .error (.analysisError e)
    | .ok comparisons =>
      let whale_scores := comparisons.map Comparison.whale_score
      let risk_factors := comparisons.map Comparison.risk_factor
      .ok
        { total_addresses := addressData.addresses.length
          highest_whale_score := listMax whale_scores
          highest_risk := listMax risk_factors
          average_whale_score := round3 (listMean whale_scores)
          average_risk := round3 (listMean risk_factors)
          individual_analysis := comparisons
          whale_concentration := (whale_scores.filter (fun w => w > 0.7)).length
          high_risk_addresses := (risk_factors.filter (fun r => r > 0.7)).length
          potential_connections :=
            if sampleVar whale_scores < 0.01 then "Manual review recommended"
            else "No obvious connections" }

/-- Guard structure of `compare_sei_addresses` in the live variant
(`analyze_server_live.py`): fewer than 2 addresses is rejected up front,
then each address is analyzed over the network and only analyses without
an `"error"` key are kept; fewer than 2 surviving analyses is rejected.
The per-address outcome of the network analysis is abstracted as the
predicate `analysisOk`; the result is the count of valid analyses. -/
def compare_sei_addresses_guard (addresses : List String)
    (analysisOk : String → Bool) : Except CompareErr ℕ :=
  if addresses.length < 2 then .error .insufficientInput
  else
    let analyses := addresses.filter analysisOk
    if analyses.length < 2 then .error .insufficientInput
    else .ok analyses.length

/-- Error kinds of the simple HTTP wrapper endpoint. -/
inductive HttpErr where
  | invalidInput (detail : String)
  | internalError (e : PyErr)
deriving DecidableEq, Repr

/-- Request body of the `/analyze/wallet` HTTP endpoint: `address` and
`balance` are read with `body.get`, so both may be absent; the balance
defaults to 1000000. -/
structure HttpBody where
  address : Option String
  balance : Option ℚ
  transactions : List Tx
deriving DecidableEq, Repr

/-- `analyze_wallet_endpoint` of `analyze_server_simple_http.py`: a
missing (or empty, since Python `if not address` is a falsiness test)
address is rejected with "Address is required" before the engine runs;
otherwise the wallet dict is assembled and `analyze_wallet` is called,
any exception from it surfacing as an internal error. -/
def analyze_wallet_endpoint (body : HttpBody) (now : String) :
    Except HttpErr WalletAnalysis :=
  match body.address with
  | none => .error (.invalidInput "Address is required")
  | some a =>
    if a = "" then .error (.invalidInput "Address is required")
    else
      match analyze_wallet ⟨some a, body.balance.getD 1000000, body.transactions⟩ now with
      | .ok r => .ok r
      | .error e => .error (.internalError e)

/-- A sample transaction with a positive amount, used as concrete input. -/
def stx : Tx := ⟨100, none, none, some "transfer"⟩

/-- The end-to-end scenario snapshot of the spec: balance 5,000,000,
no transactions. -/
def scenarioWallet : WalletData := ⟨some "sei1whale", 5000000, []⟩

/-- A snapshot whose whale score is 0.3 (0.0002 percent of supply). -/
def w03 : WalletData := ⟨some "sei1a", 20000, []⟩

/-- A snapshot whose whale score is 0.5 (0.002 percent of supply). -/
def w05 : WalletData := ⟨some "sei1b", 200000, []⟩

/-- A comparison input of two identical snapshots. -/
def cmpPair : AddressData := ⟨[w03, w03]⟩

/-- A comparison input with whale scores 0.3, 0.3, 0.5: the population
standard deviation of the scores is below 0.1 but the sample standard
deviation is not. -/
def cmpTriple : AddressData := ⟨[w03, w03, w05]⟩

/-- A wallet snapshot used to exhibit the timestamp in the output. -/
def cwallet : WalletData := ⟨some "sei1x", 1000, []⟩

/-- Claim C1 (code_bug evidence): with a non-empty transaction list and
balance = 0, `calculate_influence_score` does not guard the division by
`balance * 10`: it raises ZeroDivisionError, and `analyze_wallet`
propagates that error to the caller instead of returning a score
in [0,1]. -/
theorem influence_score_unguarded_division :
    calculate_influence_score [stx] 0 = Except.error PyErr.zeroDivision ∧
      analyze_wallet ⟨some "sei1z", 0, [stx]⟩ "t0" = Except.error PyErr.zeroDivision := by
  with_unfolding_all decide

/-- Claim C2 (counterexample): scoring the same snapshot twice does not
yield bit-identical `WalletAnalysis` results: the two calls read the
wall clock at different times and the `analysis_timestamp` field
differs. -/
theorem analyze_wallet_timestamp_differs :
    analyze_wallet cwallet "2025-01-01T00:00:00" ≠ analyze_wallet cwallet "2025-01-01T00:00:01" := by
  with_unfolding_all decide

/-- Claim C2 (amended): scoring the same snapshot twice yields results
identical in every field except `analysis_timestamp`; erasing that field,
the output of `analyze_wallet` is a deterministic pure function of the
snapshot alone. -/
theorem analyze_wallet_deterministic_up_to_timestamp :
    ∀ (w : WalletData) (t₁ t₂ : String),
      (analyze_wallet w t₁).map eraseTimestamp = (analyze_wallet w t₂).map eraseTimestamp := by
  intro w t₁ t₂
  simp only [analyze_wallet]
  cases calculate_influence_score w.transactions w.balance <;> rfl

/-- Claim C3: for every balance and total supply, `calculate_whale_score`
is exactly the claimed step function of
percentage_of_supply = balance/total_supply × 100: balance ≤ 0 gives 0.0;
percentage ≥ 1.0 gives 1.0; ≥ 0.1 gives 0.9; ≥ 0.01 gives 0.7; ≥ 0.001
gives 0.5; ≥ 0.0001 gives 0.3; any other positive balance gives 0.1. -/
theorem whale_score_step_function :
    ∀ (balance total_supply : ℚ),
      calculate_whale_score balance total_supply = whale_score_spec balance total_supply := by
  intro b s
  rfl

/-- Claim C4: in `analyze_wallet` the overall score is exactly
whale_score×0.3 + (1−risk_factor)×0.3 + influence_score×0.4 (rounded to
three decimals for display, like every score in the result); and on the
spec's scenario (balance 5,000,000 of a 10,000,000,000 supply, zero
transactions) the scores are whale 0.7, risk 0.5, influence 0.1 and
overall exactly 0.40. -/
theorem overall_score_weighted_combination :
    (∀ (w : WalletData) (now : String) (i : ℚ),
        calculate_influence_score w.transactions w.balance = Except.ok i →
        (analyze_wallet w now).map (fun a => a.scores.overall_score) =
          Except.ok (round3 (calculate_whale_score w.balance 10000000000 * 0.3 +
            (1 - calculate_risk_factor w.transactions w.balance) * 0.3 + i * 0.4))) ∧
      (analyze_wallet scenarioWallet "t0").map (fun a => a.scores.overall_score) = Except.ok 0.4 ∧
      (analyze_wallet scenarioWallet "t0").map (fun a => a.scores.whale_score) = Except.ok 0.7 ∧
      (analyze_wallet scenarioWallet "t0").map (fun a => a.scores.risk_factor) = Except.ok 0.5 ∧
      (analyze_wallet scenarioWallet "t0").map (fun a => a.scores.influence_score) = Except.ok 0.1 := by
  refine ⟨?_, ?_, ?_, ?_, ?_⟩
  · intro w now i h
    simp only [analyze_wallet, h]
    rfl
  · with_unfolding_all decide
  · with_unfolding_all decide
  · with_unfolding_all decide
  · with_unfolding_all decide

/-- Claim C4 witness: the general formula applied to the scenario
snapshot, discharging the hypothesis that the influence computation
succeeds (with value 0.1, its no-transaction default). -/
theorem overall_score_weighted_combination_witness :
    (analyze_wallet scenarioWallet "t1").map (fun a => a.scores.overall_score) =
      Except.ok (round3 (calculate_whale_score scenarioWallet.balance 10000000000 * 0.3 +
        (1 - calculate_risk_factor scenarioWallet.transactions scenarioWallet.balance) * 0.3 +
        0.1 * 0.4)) :=
  overall_score_weighted_combination.1 scenarioWallet "t1" 0.1 (by with_unfolding_all decide)

/-- Claim C5: for every transaction list and balance,
`calculate_risk_factor` equals the claimed function: exactly 0.5 on the
empty list for any balance, else the arithmetic mean, clamped to at
most 1, of the frequency, amount-concentration and counterparty-diversity
sub-scores. -/
theorem risk_factor_three_subscores :
    ∀ (transactions : List Tx) (balance : ℚ),
      calculate_risk_factor transactions balance = risk_factor_spec transactions balance := by
  intro txs b
  cases txs with
  | nil => rfl
  | cons h t =>
    simp only [calculate_risk_factor, risk_factor_spec, List.isEmpty_cons, Bool.false_eq_true,
      if_false, List.map_cons, reduceCtorEq, if_neg, listMean]
    have hmax : max (h :: t).length 1 = (h :: t).length := by
      simp [List.length_cons]
    rw [hmax]
    congr 1
    simp only [List.cons_append, List.nil_append, List.sum_cons, List.sum_nil, List.length_cons,
      List.length_nil]
    push_cast
    ring

/-- Claim C6: for every combination of scores and chain metrics the
classification agrees with the claimed first-match-wins precedence chain
and always yields exactly one label of the fixed enumeration. -/
theorem classification_total_first_match :
    ∀ (whale_score influence_score : ℚ) (defi_participation : Bool) (staking_amount : ℚ),
      classify whale_score influence_score defi_participation staking_amount =
          classify_spec whale_score influence_score defi_participation staking_amount ∧
        classify whale_score influence_score defi_participation staking_amount ∈
          classificationLabels := by
  intro ws infl defi st
  refine ⟨rfl, ?_⟩
  unfold classify classificationLabels
  split_ifs <;> simp

/-- Helper: a successful `analyze_wallet` reports as `whale_score` the
rounded `calculate_whale_score` of the snapshot's balance. -/
theorem analyze_wallet_ok_whale (w : WalletData) (now : String) (a : WalletAnalysis)
    (h : analyze_wallet w now = Except.ok a) :
    a.scores.whale_score = round3 (calculate_whale_score w.balance 10000000000) := by
  simp only [analyze_wallet] at h
  cases hE : calculate_influence_score w.transactions w.balance with
  | error e => rw [hE] at h; simp [Except.map] at h
  | ok i =>
    rw [hE] at h
    simp only [Except.map, Except.ok.injEq] at h
    rw [← h]

/-- Helper: the whale scores collected by the comparator loop are, in
order, the rounded whale scores of the input balances. -/
theorem analyzeAll_whale_scores (now : String) : ∀ (ws : List WalletData) (cs : List Comparison),
    analyzeAll ws now = Except.ok cs →
    cs.map Comparison.whale_score =
      ws.map (fun w => round3 (calculate_whale_score w.balance 10000000000)) := by
  intro ws
  induction ws with
  | nil =>
    intro cs h
    simp only [analyzeAll, Except.ok.injEq] at h
    rw [← h]
    rfl
  | cons w rest ih =>
    intro cs h
    simp only [analyzeAll] at h
    cases hA : analyze_wallet w now with
    | error e => rw [hA] at h; simp at h
    | ok a =>
      rw [hA] at h
      cases hR : analyzeAll rest now with
      | error e => rw [hR] at h; simp [Except.map] at h
      | ok cs' =>
        rw [hR] at h
        simp only [Except.map, Except.ok.injEq] at h
        rw [← h]
        simp only [List.map_cons]
        rw [ih cs' hR]
        rw [analyze_wallet_ok_whale w now a hA]

/-- Claim C7 (counterexample): on three snapshots with whale scores
0.3, 0.3, 0.5 the population standard deviation of the whale scores is
below 0.1 (population variance below 0.01), yet the comparator reports
"No obvious connections" — so the report is not governed by the
population standard deviation. -/
theorem connection_population_stdev_refuted :
    popVar (cmpTriple.addresses.map
        (fun w => round3 (calculate_whale_score w.balance 10000000000))) < 0.01 ∧
      (compare_addresses cmpTriple "t0").map (fun r => r.potential_connections) =
        Except.ok "No obvious connections" := by
  with_unfolding_all decide

/-- Claim C7 (amended): whenever the comparator succeeds, it reports
"Manual review recommended" exactly when the sample standard deviation
(`statistics.stdev`, with the n−1 denominator) of the rounded whale
scores of the inputs is below 0.1 — embedded as the sample variance
being below 0.01 — and otherwise "No obvious connections". -/
theorem connection_reported_by_sample_stdev (input : AddressData) (now : String)
    (h : (compare_addresses input now).isOk = true) :
    (compare_addresses input now).map (fun r => r.potential_connections) =
      Except.ok (if sampleVar (input.addresses.map
          (fun w => round3 (calculate_whale_score w.balance 10000000000))) < 0.01
        then "Manual review recommended" else "No obvious connections") := by
  unfold compare_addresses at h ⊢
  by_cases hlen : input.addresses.length < 2
  · rw [if_pos hlen] at h
    simp [Except.toBool] at h
  · rw [if_neg hlen] at h ⊢
    cases hA : analyzeAll input.addresses now with
    | error e => simp [hA, Except.toBool] at h
    | ok cs =>
      show Except.ok (if sampleVar (cs.map Comparison.whale_score) < 0.01
          then "Manual review recommended" else "No obvious connections") = _
      rw [analyzeAll_whale_scores now input.addresses cs hA]

/-- Claim C7 witness: two identical snapshots give sample deviation 0,
so the comparator reports "Manual review recommended". -/
theorem connection_reported_by_sample_stdev_witness :
    (compare_addresses cmpPair "t0").map (fun r => r.potential_connections) =
      Except.ok "Manual review recommended" := by
  have h := connection_reported_by_sample_stdev cmpPair "t0" (by with_unfolding_all decide)
  rw [h]
  with_unfolding_all decide

/-- Claim C8: both comparators reject insufficient input with the
insufficient-input error and produce no comparison result — the
synthetic comparator whenever fewer than 2 addresses are supplied, and
the live comparator also when fewer than 2 of the supplied addresses
yield a valid (error-free) analysis. -/
theorem comparators_require_two_inputs :
    (∀ (input : AddressData) (now : String), input.addresses.length < 2 →
        compare_addresses input now = Except.error CompareErr.insufficientInput) ∧
      ∀ (addrs : List String) (valid : String → Bool),
        addrs.length < 2 ∨ (addrs.filter valid).length < 2 →
        compare_sei_addresses_guard addrs valid = Except.error CompareErr.insufficientInput := by
  constructor
  · intro input now h
    unfold compare_addresses
    rw [if_pos h]
  · intro addrs valid h
    simp only [compare_sei_addresses_guard]
    by_cases h1 : addrs.length < 2
    · rw [if_pos h1]
    · rw [if_neg h1]
      rcases h with h | h
      · exact absurd h h1
      · rw [if_pos h]

/-- Claim C8 witness: an empty address list is rejected by the synthetic
comparator, and two addresses with no valid analysis are rejected by the
live comparator's guard. -/
theorem comparators_require_two_inputs_witness :
    compare_addresses ⟨[]⟩ "t0" = Except.error CompareErr.insufficientInput ∧
      compare_sei_addresses_guard ["sei1a", "sei1b"] (fun _ => false) =
        Except.error CompareErr.insufficientInput :=
  ⟨comparators_require_two_inputs.1 ⟨[]⟩ "t0" (by decide),
    comparators_require_two_inputs.2 ["sei1a", "sei1b"] (fun _ => false) (Or.inr (by decide))⟩

/-- Claim C9 (counterexample): the core analyze-wallet tool does not
fail on a missing address: it silently substitutes the default
"unknown" and returns a full analysis. -/
theorem analyze_wallet_defaults_missing_address :
    (analyze_wallet ⟨none, 1000, []⟩ "t0").map (fun a => a.address) = Except.ok "unknown" := by
  with_unfolding_all decide

/-- Claim C9 (amended): only the simple HTTP endpoint rejects a request
whose body has a missing (or empty) address, with the invalid-input
error "Address is required" and no analysis; the core analyze-wallet
tool instead substitutes the default "unknown" for a missing address and
behaves exactly as if that address had been supplied. -/
theorem endpoint_rejects_missing_address :
    (∀ (body : HttpBody) (now : String),
        body.address = none ∨ body.address = some "" →
        analyze_wallet_endpoint body now =
          Except.error (HttpErr.invalidInput "Address is required")) ∧
      ∀ (balance : ℚ) (transactions : List Tx) (now : String),
        analyze_wallet ⟨none, balance, transactions⟩ now =
          analyze_wallet ⟨some "unknown", balance, transactions⟩ now := by
  constructor
  · intro body now h
    rcases h with h | h <;> simp [analyze_wallet_endpoint, h]
  · intro b t now
    rfl

/-- Claim C9 witness: a body with no address is rejected by the HTTP
endpoint, and the core tool treats a missing address as "unknown". -/
theorem endpoint_rejects_missing_address_witness :
    analyze_wallet_endpoint ⟨none, none, []⟩ "t0" =
        Except.error (HttpErr.invalidInput "Address is required") ∧
      analyze_wallet ⟨none, 5, []⟩ "t1" = analyze_wallet ⟨some "unknown", 5, []⟩ "t1" :=
  ⟨endpoint_rejects_missing_address.1 ⟨none, none, []⟩ "t0" (Or.inl rfl),
    endpoint_rejects_missing_address.2 5 [] "t1"⟩

/-- Helper: a transaction whose type contains "staking" cannot have the
exact type "incoming". -/
theorem staking_excludes_incoming (tx : Tx) (hs : isStakingTx tx = true) :
    (tx.tx_type == some "incoming") = false := by
  cases hbeq : tx.tx_type == some "incoming" with
  | false => rfl
  | true =>
    have he : tx.tx_type = some "incoming" := by simpa using hbeq
    simp only [isStakingTx, he, Option.getD_some] at hs
    exact absurd hs (by decide)

/-- Helper: a transaction whose type contains "staking" cannot have the
exact type "outgoing". -/
theorem staking_excludes_outgoing (tx : Tx) (hs : isStakingTx tx = true) :
    (tx.tx_type == some "outgoing") = false := by
  cases hbeq : tx.tx_type == some "outgoing" with
  | false => rfl
  | true =>
    have he : tx.tx_type = some "outgoing" := by simpa using hbeq
    simp only [isStakingTx, he, Option.getD_some] at hs
    exact absurd hs (by decide)

/-- Claim C10: staking classification and direction classification both
read the single type field and are disjoint: the staking amount and
validator-interaction count range exactly over the staking-tagged
transactions, no staking-tagged transaction is counted as incoming or
outgoing, and no transaction is both staking-tagged and
incoming/outgoing-tagged. -/
theorem staking_disjoint_from_direction :
    ∀ (address : String) (transactions : List Tx),
      (get_sei_specific_metrics address transactions).staking_amount =
          ((transactions.filter isStakingTx).map Tx.amount).sum ∧
        (get_sei_specific_metrics address transactions).validator_interactions =
          (transactions.filter isStakingTx).length ∧
        incomingCount (transactions.filter isStakingTx) = 0 ∧
        outgoingCount (transactions.filter isStakingTx) = 0 ∧
        transactions.filter (fun tx => isStakingTx tx &&
          (tx.tx_type == some "incoming" || tx.tx_type == some "outgoing")) = [] := by
  intro addr txs
  refine ⟨rfl, rfl, ?_, ?_, ?_⟩
  · rw [incomingCount, List.countP_eq_zero]
    intro tx htx
    have hs := (List.mem_filter.mp htx).2
    simp [staking_excludes_incoming tx hs]
  · rw [outgoingCount, List.countP_eq_zero]
    intro tx htx
    have hs := (List.mem_filter.mp htx).2
    simp [staking_excludes_outgoing tx hs]
  · rw [List.filter_eq_nil_iff]
    intro tx _
    cases hstake : isStakingTx tx with
    | false => simp
    | true =>
      simp [staking_excludes_incoming tx hstake, staking_excludes_outgoing tx hstake]
